import Mathlib

/-!
Shallow embedding of the mern-server-example GraphQL resolvers
(`src/resolvers.js` as the primary module, with the `index.js` bootstrap
variant and the unnamed root-level variant where the claims cite them),
together with models of the two external cryptographic collaborators
(bcrypt and jsonwebtoken) as black boxes per their contracts.

Conventions of the embedding:
* Mongo documents become Lean structures; the `users` and `posts`
  collections become `List UserDoc` / `List PostDoc` with first-match
  semantics for `findOne` / `deleteOne` / `findOneAndUpdate`.
* A resolver's `req.user` (the identity attached by the express-jwt
  middleware) is an `Option String` carrying the account id claim.
* A store call that can fail unexpectedly is modelled by an extra
  `fault : Option String` argument: `some m` means the store call throws
  an error whose `message` is `m`; `none` is the normal path.
* `ObjectID(s)` of the mongodb driver throws unless `s` is a 12-byte
  string or a 24-character hex string; `objectIdValid` is that check and
  `objectIdErrMsg` the thrown error's message.
* JS exceptions that escape a resolver become `Except.error`; a resolver
  that returns an `Error` object (which the GraphQL executor raises as a
  field error, indistinguishable from a throw for the caller) is also
  modelled as `Except.error`.
-/

namespace Mern

/-- A document of the `users` collection. -/
structure UserDoc where
  uid : String
  userName : String
  password : String
deriving Repr, DecidableEq

/-- A document of the `posts` collection, as written by `createPost`:
title/content copied from `args.data` (each may be absent), `author` the
caller's account id, `likes` starting at 0, and the two timestamps. -/
structure PostDoc where
  pid : String
  title : Option String
  content : Option String
  author : String
  likes : Int
  createdAt : Nat
  updatedAt : Nat
deriving Repr, DecidableEq

/-- The `data : PostDataInput` argument of createPost/updatePost; both
fields are optional in the schema. -/
structure PostData where
  title : Option String
  content : Option String
deriving Repr, DecidableEq

/-- The value a post mutation resolver returns: the `{success, message}`
envelope, optionally overlaid on the fields of a post document. -/
structure PostResponse where
  id : Option String
  title : Option String
  content : Option String
  author : Option String
  likes : Option Int
  success : Bool
  message : String
deriving Repr, DecidableEq

/-- A bare `{success, message}` envelope with no entity fields. -/
def envelope (s : Bool) (m : String) : PostResponse :=
  ⟨none, none, none, none, none, s, m⟩

/-- The `{...post, id: post._id, success, message}` spread a mutation
returns on success. -/
def postSuccess (p : PostDoc) (m : String) : PostResponse :=
  ⟨some p.pid, p.title, p.content, some p.author, some p.likes, true, m⟩

/-- Hexadecimal digit, as accepted by the mongodb driver's ObjectID
well-formedness check. -/
def isHexDigitChar (c : Char) : Bool :=
  c.isDigit || ('a' ≤ c && c ≤ 'f') || ('A' ≤ c && c ≤ 'F')

/-- Validity check performed by `ObjectID(s)`: a single string of
12 bytes or a string of 24 hex characters; anything else throws. -/
def objectIdValid (s : String) : Bool :=
  s.length == 12 || (s.length == 24 && s.toList.all isHexDigitChar)

/-- Message of the error `ObjectID(s)` throws on a malformed input. -/
def objectIdErrMsg : String :=
  "Argument passed in must be a single String of 12 bytes or a string of 24 hex characters"

/-- Whether `pat` occurs at the start of `l` (character lists). -/
def startsAt : List Char → List Char → Bool
  | [], _ => true
  | _ :: _, [] => false
  | p :: ps, c :: cs => p == c && startsAt ps cs

/-- Whether `pat` occurs anywhere in `l` (character lists). -/
def occursIn (pat : List Char) : List Char → Bool
  | [] => startsAt pat []
  | c :: cs => startsAt pat (c :: cs) || occursIn pat cs

/-- JS `s.indexOf(pat) >= 0`: substring containment. -/
def hasSubstr (s pat : String) : Bool :=
  occursIn pat.toList s.toList

/-- Mongo `findOne({_id: id})` on the `posts` collection: first match. -/
def findPost (st : List PostDoc) (id : String) : Option PostDoc :=
  st.find? (fun p => p.pid == id)

/-- Mongo `deleteOne({_id: id})`: remove the first matching document. -/
def removeFirstPost : List PostDoc → String → List PostDoc
  | [], _ => []
  | p :: ps, id => if p.pid == id then ps else p :: removeFirstPost ps id

/-- Mongo `findOneAndUpdate({_id: id}, upd)`: apply `f` to the first
matching document, leaving the rest unchanged. -/
def updateFirstPost (f : PostDoc → PostDoc) : List PostDoc → String → List PostDoc
  | [], _ => []
  | p :: ps, id => if p.pid == id then f p :: ps else p :: updateFirstPost f ps id

/-- The `$set: args.data` update of updatePost: overwrite exactly the
fields present in the input (`updatedAt` is not refreshed). -/
def applySet (p : PostDoc) (d : PostData) : PostDoc :=
  { p with
    title := match d.title with | some t => some t | none => p.title
    content := match d.content with | some c => some c | none => p.content }

/-- The `$inc: {likes: 1}` update of likePost. -/
def likeOne (p : PostDoc) : PostDoc :=
  { p with likes := p.likes + 1 }

/-- The catch block of `Mutation.deletePost`: an error whose message
contains `jwt` becomes the auth failure envelope, all others the generic
one. -/
def catchDelete (m : String) : PostResponse :=
  if hasSubstr m "jwt" then envelope false "Invalid Auth token!"
  else envelope false "Something went wrong!"

/-- `Mutation.createPost` of `src/resolvers.js`: gate on `req.user`,
insert the new document (author = `ObjectID(user.id)`, likes = 0,
timestamps = now, store-assigned id `newId`), then `findOne` the inserted
id and spread it into the success envelope. A throw anywhere in the try
block (malformed `user.id`, store fault) is caught as the generic
failure. -/
def createPost (user : Option String) (fault : Option String) (st : List PostDoc)
    (d : PostData) (now : Nat) (newId : String) : PostResponse × List PostDoc :=
  match user with
  | none => (envelope false "User not found!", st)
  | some uid =>
    if objectIdValid uid then
      match fault with
      | some _ => (envelope false "Something went wrong!", st)
      | none =>
        let doc : PostDoc := ⟨newId, d.title, d.content, uid, 0, now, now⟩
        let st2 := st ++ [doc]
        match findPost st2 newId with
        | some p => (postSuccess p "Post created successfully!", st2)
        | none => (envelope false "Post not found!", st2)
    else (envelope false "Something went wrong!", st)

/-- `Mutation.deletePost` of `src/resolvers.js`: gate on `req.user`,
`deleteOne` by id, success iff `deletedCount === 1`; the catch block
distinguishes jwt-marked errors. -/
def deletePost (user : Option String) (fault : Option String) (st : List PostDoc)
    (pid : String) : PostResponse × List PostDoc :=
  match user with
  | none => (envelope false "User not found!", st)
  | some _ =>
    if objectIdValid pid then
      match fault with
      | some m => (catchDelete m, st)
      | none =>
        match findPost st pid with
        | some _ => (envelope true "Post delete successfully!", removeFirstPost st pid)
        | none => (envelope false "Post does not exist!", st)
    else (catchDelete objectIdErrMsg, st)

/-- `Mutation.updatePost` of `src/resolvers.js`: gate on `req.user`,
`findOneAndUpdate` with `$set: args.data` and `returnOriginal: false`
(so the updated document is spread into the response); any throw is
caught as the generic failure. -/
def updatePost (user : Option String) (fault : Option String) (st : List PostDoc)
    (pid : String) (d : PostData) : PostResponse × List PostDoc :=
  match user with
  | none => (envelope false "User not found!", st)
  | some _ =>
    if objectIdValid pid then
      match fault with
      | some _ => (envelope false "Something went wrong!", st)
      | none =>
        match findPost st pid with
        | some p =>
            (postSuccess (applySet p d) "Post updated successfully!",
             updateFirstPost (fun q => applySet q d) st pid)
        | none => (envelope false "Post does not exist!", st)
    else (envelope false "Something went wrong!", st)

/-- `Mutation.likePost` of `src/resolvers.js`: note that, unlike the
other three mutations, this resolver performs NO `user === undefined`
check — the `user` argument is ignored and the store call proceeds for
unauthenticated requests as well. `findOneAndUpdate` with
`$inc: {likes: 1}` and `returnOriginal: false` spreads the updated
document into the response. -/
def likePost (user : Option String) (fault : Option String) (st : List PostDoc)
    (pid : String) : PostResponse × List PostDoc :=
  let _ := user
  if objectIdValid pid then
    match fault with
    | some _ => (envelope false "Something went wrong!", st)
    | none =>
      match findPost st pid with
      | some p =>
          (postSuccess (likeOne p) "Post liked successfully!",
           updateFirstPost likeOne st pid)
      | none => (envelope false "Post does not exist!", st)
  else (envelope false "Something went wrong!", st)

/-- `Mutation.likePost` of the unnamed root-level variant: `getUser`
(jwt.verify of the authorization header) runs first — `user = none`
models it throwing (missing or invalid header), caught as the generic
failure; `some ""` models a decoded token with a falsy `userId`, for
which the resolver falls through with no return value (`Option.none`
response). Its `findOneAndUpdate` omits `returnOriginal: false`, so the
ORIGINAL document (pre-increment `likes`) is spread into the success
response although the store is updated. -/
def likePostV0 (user : Option String) (st : List PostDoc)
    (pid : String) : Option PostResponse × List PostDoc :=
  match user with
  | none => (some (envelope false "Something went wrong!"), st)
  | some uid =>
    if uid == "" then (none, st)
    else if objectIdValid pid then
      match findPost st pid with
      | some p =>
          (some (postSuccess p "Post liked successfully!"),
           updateFirstPost likeOne st pid)
      | none => (some (envelope false "Post does not exist!"), st)
    else (some (envelope false "Something went wrong!"), st)

/-- `Query.post` of `src/resolvers.js`: no try/catch, so a malformed id
makes `ObjectID` throw out of the resolver, and a missing post throws
`UserInputError('Invalid post id!')`; both surface as query errors. -/
def postQuery (st : List PostDoc) (pid : String) : Except String PostDoc :=
  if objectIdValid pid then
    match findPost st pid with
    | some p => .ok p
    | none => .error "Invalid post id!"
  else .error objectIdErrMsg

/-- Projection of a user document returned by `currentUser`. -/
structure UserView where
  id : String
  userName : String
deriving Repr, DecidableEq

/-- `Query.currentUser` of `src/resolvers.js`: throws
`UserInputError('Invalid user id!')` when `req.user` is undefined or the
referenced account is not in the `users` collection; the catch block
returns the error object, which the GraphQL executor raises as a field
error — modelled as `Except.error` either way. -/
def currentUser (user : Option String) (users : List UserDoc) : Except String UserView :=
  match user with
  | none => .error "Invalid user id!"
  | some uid =>
    if objectIdValid uid then
      match users.find? (fun u => u.uid == uid) with
      | some u => .ok ⟨u.uid, u.userName⟩
      | none => .error "Invalid user id!"
    else .error objectIdErrMsg

/-- `Query.currentUser` of the unnamed root-level variant: `getUser`
(jwt.verify of the authorization header) runs first inside the try —
`user = none` models it throwing (missing or invalid credential), and
`some ""` a decoded token with a falsy `userId`. Every throwing path
(the jwt error, the `UserInputError('Invalid user id!')` of a falsy
`userId` or a missing account, a malformed id making ObjectID throw) is
caught and re-thrown as `Error('Invalid auth token!')`, so that is the
only error message this variant ever surfaces. -/
def currentUserV0 (user : Option String) (users : List UserDoc) : Except String UserView :=
  match user with
  | none => .error "Invalid auth token!"
  | some uid =>
    if uid == "" then .error "Invalid auth token!"
    else if objectIdValid uid then
      match users.find? (fun u => u.uid == uid) with
      | some u => .ok ⟨u.uid, u.userName⟩
      | none => .error "Invalid auth token!"
    else .error "Invalid auth token!"

/-- Model of the external bcrypt collaborator (black box per the spec's
crypto contract): `hash` is one-way and `compare p h` succeeds exactly
when `h` is the hash of `p`. -/
def bcryptHash (pw : String) : String :=
  "bcrypt2b10" ++ pw

/-- bcrypt.compare of a plaintext against a stored hash. -/
def bcryptCompare (pw stored : String) : Bool :=
  stored == bcryptHash pw

/-- Model of a signed jsonwebtoken: the `id` claim, the signing secret,
the algorithm, issued-at, and the optional absolute expiry (`iat`
plus `expiresIn`). -/
structure JwtToken where
  sub : String
  secret : String
  alg : String
  iat : Nat
  exp : Option Nat
deriving Repr, DecidableEq

/-- One day in seconds: jsonwebtoken's reading of `expiresIn: '1d'`. -/
def daySeconds : Nat := 86400

/-- `jwt.sign({id}, secret, {algorithm, expiresIn?})`; the default
algorithm for a string secret is HS256, and `expiresIn` (seconds) sets
`exp = iat + expiresIn`. -/
def jwtSign (idClaim secret : String) (iat : Nat) (expiresIn : Option Nat) : JwtToken :=
  ⟨idClaim, secret, "HS256", iat, expiresIn.map (fun d => iat + d)⟩

/-- `jwt.verify(token, secret)` restricted to HS256 at clock time `now`:
yields the `id` claim when the secret matches and the token is not
expired (a token without `exp` never expires), else fails. -/
def jwtVerify (t : JwtToken) (secret : String) (now : Nat) : Option String :=
  if t.secret == secret && t.alg == "HS256" then
    match t.exp with
    | none => some t.sub
    | some e => if now < e then some t.sub else none
  else none

/-- The Identity Resolver (express-jwt middleware with the shared
secret, HS256 only): no credential, or a credential that fails
verification, yields no identity. -/
def resolveIdentity (tok : Option JwtToken) (secret : String) (now : Nat) : Option String :=
  match tok with
  | none => none
  | some t => jwtVerify t secret now

/-- The value a signUp/signIn resolver returns. -/
structure AuthResponse where
  token : Option JwtToken
  success : Bool
  message : String
deriving Repr, DecidableEq

/-- `Mutation.signUp` of `src/resolvers.js`: read-before-write
uniqueness check on `userName`, then insert `{userName, password: hash}`
(store-assigned id `newId`) and sign `{id: insertedId}` with the shared
secret and NO expiry option. -/
def signUp (users : List UserDoc) (userName pw secret : String) (now : Nat)
    (newId : String) : AuthResponse × List UserDoc :=
  match users.find? (fun u => u.userName == userName) with
  | some _ => ({ token := none, success := false, message := "Username already exists!" }, users)
  | none =>
    ({ token := some (jwtSign newId secret now none),
       success := true,
       message := "User created successfully!" },
     users ++ [⟨newId, userName, bcryptHash pw⟩])

/-- `Mutation.signIn` of `src/resolvers.js`: `findOne` by userName, then
`bcrypt.compare(password, user.password)` — with NO null check and NO
try/catch, so a userName matching no account dereferences `null` and the
TypeError propagates out of the resolver as a raw fault. On a match,
sign `{id: user._id}` with HS256 and `expiresIn: '1d'`. -/
def signIn (users : List UserDoc) (userName pw secret : String)
    (now : Nat) : Except String AuthResponse :=
  match users.find? (fun u => u.userName == userName) with
  | none => .error "TypeError: Cannot read properties of null (reading password)"
  | some u =>
    if bcryptCompare pw u.password then
      .ok { token := some (jwtSign u.uid secret now (some daySeconds)),
            success := true,
            message := "User signed in successfully!" }
    else
      .ok { token := none, success := false, message := "Invalid username or password!" }

/-! Concrete documents used by witnesses and counterexamples. -/

/-- A well-formed (24-hex) post id. -/
def demoPostId : String := "aaaaaaaaaaaaaaaaaaaaaaaa"

/-- A well-formed account id for the caller. -/
def demoUid : String := "cccccccccccccccccccccccc"

/-- A well-formed account id distinct from `demoUid`, used as author. -/
def demoAuthor : String := "bbbbbbbbbbbbbbbbbbbbbbbb"

/-- A stored post with zero likes, authored by `demoAuthor`. -/
def demoPost : PostDoc := ⟨demoPostId, some "T", some "C", demoAuthor, 0, 0, 0⟩

/-- A stored account whose password is the hash of "hunter2". -/
def demoUser : UserDoc := ⟨demoUid, "alice", bcryptHash "hunter2"⟩

/-- The ObjectID error message contains no `jwt` marker, so deletePost's
catch block downgrades it to the generic failure. -/
theorem objectIdErrMsg_no_jwt : hasSubstr objectIdErrMsg "jwt" = false := by decide

/-- Appending a document whose id is fresh makes it the one `findOne`
returns for that id. -/
theorem findPost_append_fresh (st : List PostDoc) (doc : PostDoc)
    (h : findPost st doc.pid = none) : findPost (st ++ [doc]) doc.pid = some doc := by
  unfold findPost at h ⊢
  rw [List.find?_append, h]
  simp

/-- C1: src/resolvers.js likePost performs no identity check: called
with no authenticated identity on an existing post, it still issues the
store call, increments likes, and answers the success envelope instead
of `{success:false, message:"User not found!"}` with zero store calls. -/
theorem likePost_no_gate_mutates :
    likePost none none [demoPost] demoPostId =
      (postSuccess (likeOne demoPost) "Post liked successfully!", [likeOne demoPost]) ∧
    (postSuccess (likeOne demoPost) "Post liked successfully!").message ≠ "User not found!" ∧
    (postSuccess (likeOne demoPost) "Post liked successfully!").success = true ∧
    [likeOne demoPost] ≠ [demoPost] := by
  refine ⟨by decide, by decide, by decide, by decide⟩

/-- C2 counterexample: the root-level variant's likePost omits
`returnOriginal: false`, so on a post with 0 likes the store is updated
to 1 like but the success response carries `likes = 0`, not the previous
value plus 1. -/
theorem likePostV0_stale_likes :
    (likePostV0 (some demoUid) [demoPost] demoPostId).1 =
      some (postSuccess demoPost "Post liked successfully!") ∧
    (likePostV0 (some demoUid) [demoPost] demoPostId).2 = [likeOne demoPost] ∧
    (likeOne demoPost).likes = demoPost.likes + 1 ∧
    (postSuccess demoPost "Post liked successfully!").likes ≠ some (demoPost.likes + 1) := by
  refine ⟨by decide, by decide, by decide, by decide⟩

/-- C2 (amended): on an existing post every likePost call increments the
stored likes counter by exactly 1; the src/resolvers.js variant's
success response carries the updated fields (likes = previous + 1) with
`{success:true, message:"Post liked successfully!"}`, while the
root-level variant answers the same envelope but with the pre-increment
field values. -/
theorem likePost_increments (user : Option String) (st : List PostDoc) (pid : String)
    (p : PostDoc) (uid : String)
    (hv : objectIdValid pid = true) (hf : findPost st pid = some p) (huid : uid ≠ "") :
    likePost user none st pid =
      (postSuccess (likeOne p) "Post liked successfully!", updateFirstPost likeOne st pid) ∧
    (likeOne p).likes = p.likes + 1 ∧
    likePostV0 (some uid) st pid =
      (some (postSuccess p "Post liked successfully!"), updateFirstPost likeOne st pid) := by
  refine ⟨?_, rfl, ?_⟩
  · simp [likePost, hv, hf]
  · simp [likePostV0, huid, hv, hf]

/-- C2 witness: the amended statement evaluated on a one-post store. -/
theorem likePost_increments_witness :
    objectIdValid demoPostId = true ∧ findPost [demoPost] demoPostId = some demoPost ∧
    demoUid ≠ "" ∧
    (likePost (some demoUid) none [demoPost] demoPostId =
      (postSuccess (likeOne demoPost) "Post liked successfully!",
       updateFirstPost likeOne [demoPost] demoPostId) ∧
    (likeOne demoPost).likes = demoPost.likes + 1 ∧
    likePostV0 (some demoUid) [demoPost] demoPostId =
      (some (postSuccess demoPost "Post liked successfully!"),
       updateFirstPost likeOne [demoPost] demoPostId)) :=
  ⟨by decide, by decide, by decide,
   likePost_increments (some demoUid) [demoPost] demoPostId demoPost demoUid
     (by decide) (by decide) (by decide)⟩

/-- C4: signIn with a userName matching no stored account dereferences
the null `findOne` result (`user.password`) with no null check and no
try/catch, so a TypeError propagates out of the resolver as a raw fault
instead of the `{success:false, message:"Invalid username or password!"}`
envelope. -/
theorem signIn_unknown_user_faults :
    signIn [] "ghost" "pw" "s3cret" 0 =
      .error "TypeError: Cannot read properties of null (reading password)" := rfl

/-- C5 counterexample: deletePost with an authenticated identity and the
malformed id "xyz" answers the generic `"Something went wrong!"`
envelope (the ObjectID throw is caught), not `"Post does not exist!"`. -/
theorem deletePost_malformed_id_not_notfound :
    deletePost (some demoUid) none [demoPost] "xyz" =
      (envelope false "Something went wrong!", [demoPost]) ∧
    envelope false "Something went wrong!" ≠ envelope false "Post does not exist!" := by
  refine ⟨by decide, by decide⟩

/-- C5 (amended): updatePost, deletePost and likePost with an
authenticated identity and a malformed post id do not crash — the
ObjectID throw is caught — but the resulting envelope is the generic
`{success:false, message:"Something went wrong!"}`, not the not-found
message. -/
theorem malformed_id_generic (uid pid : String) (st : List PostDoc) (d : PostData)
    (hpid : objectIdValid pid = false) :
    deletePost (some uid) none st pid = (envelope false "Something went wrong!", st) ∧
    updatePost (some uid) none st pid d = (envelope false "Something went wrong!", st) ∧
    likePost (some uid) none st pid = (envelope false "Something went wrong!", st) := by
  refine ⟨?_, ?_, ?_⟩ <;>
    simp [deletePost, updatePost, likePost, hpid, catchDelete, objectIdErrMsg_no_jwt]

/-- C5 witness: the amended statement evaluated at the malformed id
"xyz". -/
theorem malformed_id_generic_witness :
    objectIdValid "xyz" = false ∧
    (deletePost (some demoUid) none [demoPost] "xyz" =
      (envelope false "Something went wrong!", [demoPost]) ∧
    updatePost (some demoUid) none [demoPost] "xyz" ⟨some "U", none⟩ =
      (envelope false "Something went wrong!", [demoPost]) ∧
    likePost (some demoUid) none [demoPost] "xyz" =
      (envelope false "Something went wrong!", [demoPost])) :=
  ⟨by decide, malformed_id_generic demoUid "xyz" [demoPost] ⟨some "U", none⟩ (by decide)⟩

/-- C3: createPost with an authenticated identity inserts a post with
likes = 0, author = the caller's id, answers the success envelope with
the inserted fields, and a subsequent `post` query on the returned id
yields the same title and content. -/
theorem createPost_then_query (uid : String) (st : List PostDoc) (d : PostData)
    (now : Nat) (newId : String)
    (hu : objectIdValid uid = true) (hid : objectIdValid newId = true)
    (hfresh : findPost st newId = none) :
    createPost (some uid) none st d now newId =
      (postSuccess ⟨newId, d.title, d.content, uid, 0, now, now⟩ "Post created successfully!",
       st ++ [⟨newId, d.title, d.content, uid, 0, now, now⟩]) ∧
    (postSuccess ⟨newId, d.title, d.content, uid, 0, now, now⟩ "Post created successfully!").likes
      = some 0 ∧
    (postSuccess ⟨newId, d.title, d.content, uid, 0, now, now⟩ "Post created successfully!").author
      = some uid ∧
    (postSuccess ⟨newId, d.title, d.content, uid, 0, now, now⟩ "Post created successfully!").success
      = true ∧
    postQuery (st ++ [⟨newId, d.title, d.content, uid, 0, now, now⟩]) newId =
      .ok ⟨newId, d.title, d.content, uid, 0, now, now⟩ := by
  have hfind := findPost_append_fresh st ⟨newId, d.title, d.content, uid, 0, now, now⟩ hfresh
  refine ⟨?_, rfl, rfl, rfl, ?_⟩
  · simp only [createPost, hu, if_true, hfind]
  · simp only [postQuery, hid, if_true, hfind]

/-- C3 witness: creating a post in the empty store and querying it
back. -/
theorem createPost_then_query_witness :
    objectIdValid demoUid = true ∧ objectIdValid demoPostId = true ∧
    findPost [] demoPostId = none ∧
    (createPost (some demoUid) none [] ⟨some "T", some "C"⟩ 0 demoPostId =
      (postSuccess ⟨demoPostId, some "T", some "C", demoUid, 0, 0, 0⟩ "Post created successfully!",
       [] ++ [⟨demoPostId, some "T", some "C", demoUid, 0, 0, 0⟩]) ∧
    (postSuccess ⟨demoPostId, some "T", some "C", demoUid, 0, 0, 0⟩
      "Post created successfully!").likes = some 0 ∧
    (postSuccess ⟨demoPostId, some "T", some "C", demoUid, 0, 0, 0⟩
      "Post created successfully!").author = some demoUid ∧
    (postSuccess ⟨demoPostId, some "T", some "C", demoUid, 0, 0, 0⟩
      "Post created successfully!").success = true ∧
    postQuery ([] ++ [⟨demoPostId, some "T", some "C", demoUid, 0, 0, 0⟩]) demoPostId =
      .ok ⟨demoPostId, some "T", some "C", demoUid, 0, 0, 0⟩) :=
  ⟨by decide, by decide, by decide,
   createPost_then_query demoUid [] ⟨some "T", some "C"⟩ 0 demoPostId
     (by decide) (by decide) (by decide)⟩

/-- C6 counterexample: a store fault whose message carries the `jwt`
marker is downgraded to the generic `"Something went wrong!"` by
createPost — only deletePost's catch block distinguishes
`"Invalid Auth token!"`. -/
theorem createPost_jwt_fault_generic :
    createPost (some demoUid) (some "jwt expired") [] ⟨some "T", some "C"⟩ 0 demoPostId =
      (envelope false "Something went wrong!", []) ∧
    hasSubstr "jwt expired" "jwt" = true ∧
    envelope false "Something went wrong!" ≠ envelope false "Invalid Auth token!" := by
  refine ⟨by decide, by decide, by decide⟩

/-- C6 (amended): an unexpected store-call failure is downgraded to
`{success:false, message:"Something went wrong!"}` by createPost,
updatePost and likePost unconditionally; only deletePost pattern-matches
the failure description and answers `"Invalid Auth token!"` when it
contains the `jwt` marker. -/
theorem store_fault_downgrade (uid m pid : String) (st : List PostDoc) (d : PostData)
    (now : Nat) (newId : String)
    (hu : objectIdValid uid = true) (hpid : objectIdValid pid = true) :
    createPost (some uid) (some m) st d now newId =
      (envelope false "Something went wrong!", st) ∧
    updatePost (some uid) (some m) st pid d =
      (envelope false "Something went wrong!", st) ∧
    likePost (some uid) (some m) st pid =
      (envelope false "Something went wrong!", st) ∧
    deletePost (some uid) (some m) st pid = (catchDelete m, st) ∧
    (hasSubstr m "jwt" = true → catchDelete m = envelope false "Invalid Auth token!") ∧
    (hasSubstr m "jwt" = false → catchDelete m = envelope false "Something went wrong!") := by
  refine ⟨?_, ?_, ?_, ?_, ?_, ?_⟩
  · simp [createPost, hu]
  · simp [updatePost, hpid]
  · simp [likePost, hpid]
  · simp [deletePost, hpid]
  · intro h; simp [catchDelete, h]
  · intro h; simp [catchDelete, h]

/-- C6 witness: the amended statement evaluated at the jwt-marked fault
message "jwt expired". -/
theorem store_fault_downgrade_witness :
    objectIdValid demoUid = true ∧ objectIdValid demoPostId = true ∧
    (createPost (some demoUid) (some "jwt expired") [demoPost] ⟨some "T", some "C"⟩ 0 demoPostId =
      (envelope false "Something went wrong!", [demoPost]) ∧
    updatePost (some demoUid) (some "jwt expired") [demoPost] demoPostId ⟨some "T", some "C"⟩ =
      (envelope false "Something went wrong!", [demoPost]) ∧
    likePost (some demoUid) (some "jwt expired") [demoPost] demoPostId =
      (envelope false "Something went wrong!", [demoPost]) ∧
    deletePost (some demoUid) (some "jwt expired") [demoPost] demoPostId =
      (catchDelete "jwt expired", [demoPost]) ∧
    (hasSubstr "jwt expired" "jwt" = true →
      catchDelete "jwt expired" = envelope false "Invalid Auth token!") ∧
    (hasSubstr "jwt expired" "jwt" = false →
      catchDelete "jwt expired" = envelope false "Something went wrong!")) :=
  ⟨by decide, by decide,
   store_fault_downgrade demoUid "jwt expired" demoPostId [demoPost] ⟨some "T", some "C"⟩ 0
     demoPostId (by decide) (by decide)⟩

/-- C7: a token issued by signIn for an account, fed back into the
Identity Resolver with the shared secret at any time within its one-day
expiry, resolves to the same account identifier that was signed into
it. -/
theorem signIn_token_roundtrip (users : List UserDoc) (u : UserDoc) (w pw secret : String)
    (now t : Nat)
    (hu : users.find? (fun x => x.userName == w) = some u)
    (hp : u.password = bcryptHash pw)
    (ht : t < now + daySeconds) :
    signIn users w pw secret now =
      .ok { token := some (jwtSign u.uid secret now (some daySeconds)),
            success := true, message := "User signed in successfully!" } ∧
    resolveIdentity (some (jwtSign u.uid secret now (some daySeconds))) secret t = some u.uid := by
  constructor
  · simp [signIn, hu, bcryptCompare, hp]
  · simp [resolveIdentity, jwtVerify, jwtSign, ht]

/-- C7 witness: signing in `demoUser` and verifying the issued token
immediately. -/
theorem signIn_token_roundtrip_witness :
    [demoUser].find? (fun x => x.userName == "alice") = some demoUser ∧
    demoUser.password = bcryptHash "hunter2" ∧ 0 < 0 + daySeconds ∧
    (signIn [demoUser] "alice" "hunter2" "s3cret" 0 =
      .ok { token := some (jwtSign demoUser.uid "s3cret" 0 (some daySeconds)),
            success := true, message := "User signed in successfully!" } ∧
    resolveIdentity (some (jwtSign demoUser.uid "s3cret" 0 (some daySeconds))) "s3cret" 0 =
      some demoUser.uid) :=
  ⟨by decide, by decide, by decide,
   signIn_token_roundtrip [demoUser] demoUser "alice" "hunter2" "s3cret" 0 0
     (by decide) (by decide) (by decide)⟩

/-- C8 counterexample: the root-level variant's currentUser, both with
the identity absent and with an identity whose account is missing,
surfaces the re-thrown `"Invalid auth token!"` error to the caller, not
an `"Invalid user id!"` condition. -/
theorem currentUserV0_auth_token_msg :
    currentUserV0 none [] = .error "Invalid auth token!" ∧
    currentUserV0 (some demoUid) [] = .error "Invalid auth token!" ∧
    (Except.error "Invalid auth token!" : Except String UserView) ≠
      Except.error "Invalid user id!" := by
  refine ⟨rfl, ?_, by simp⟩
  simp [currentUserV0, demoUid, objectIdValid, isHexDigitChar]

/-- C8 (amended): currentUser with no identity, or with an identity
whose account is absent from the users collection, fails with a thrown/
propagated query error (`Except.error`), never as a `{success, message}`
envelope value; in src/resolvers.js that error is "Invalid user id!" in
both cases, while the root-level variant's catch block re-throws every
failure as "Invalid auth token!" (its absent-identity case raises a jwt
verification error before any "Invalid user id!" condition arises). -/
theorem currentUser_query_error (users : List UserDoc) (uid : String)
    (hv : objectIdValid uid = true)
    (hm : users.find? (fun u => u.uid == uid) = none) :
    currentUser none users = .error "Invalid user id!" ∧
    currentUser (some uid) users = .error "Invalid user id!" ∧
    currentUserV0 none users = .error "Invalid auth token!" ∧
    currentUserV0 (some uid) users = .error "Invalid auth token!" := by
  have hne : uid ≠ "" := by
    intro h
    subst h
    simp [objectIdValid] at hv
  refine ⟨rfl, ?_, rfl, ?_⟩
  · simp [currentUser, hv, hm]
  · simp [currentUserV0, hne, hv, hm]

/-- C8 witness: no identity, and a well-formed identity over the empty
users collection, in both variants. -/
theorem currentUser_query_error_witness :
    objectIdValid demoUid = true ∧
    ([] : List UserDoc).find? (fun u => u.uid == demoUid) = none ∧
    (currentUser none [] = .error "Invalid user id!" ∧
     currentUser (some demoUid) [] = .error "Invalid user id!" ∧
     currentUserV0 none [] = .error "Invalid auth token!" ∧
     currentUserV0 (some demoUid) [] = .error "Invalid auth token!") :=
  ⟨by decide, by decide, currentUser_query_error [] demoUid (by decide) (by decide)⟩

/-- C9: updatePost, deletePost and likePost are identity-agnostic beyond
the presence check — any two authenticated identities get the same
response and the same resulting store — and in particular an identity
that is not the post's author still updates and deletes it. -/
theorem mutations_identity_agnostic (u1 u2 : Option String) (uid : String)
    (st : List PostDoc) (pid : String) (p : PostDoc) (d : PostData) (fault : Option String)
    (h1 : u1.isSome = true) (h2 : u2.isSome = true)
    (hv : objectIdValid pid = true) (hf : findPost st pid = some p)
    (_hown : p.author ≠ uid) :
    updatePost u1 fault st pid d = updatePost u2 fault st pid d ∧
    deletePost u1 fault st pid = deletePost u2 fault st pid ∧
    likePost u1 fault st pid = likePost u2 fault st pid ∧
    updatePost (some uid) none st pid d =
      (postSuccess (applySet p d) "Post updated successfully!",
       updateFirstPost (fun q => applySet q d) st pid) ∧
    deletePost (some uid) none st pid =
      (envelope true "Post delete successfully!", removeFirstPost st pid) := by
  obtain ⟨a, ha⟩ := Option.isSome_iff_exists.mp h1
  obtain ⟨b, hb⟩ := Option.isSome_iff_exists.mp h2
  subst ha hb
  refine ⟨rfl, rfl, rfl, ?_, ?_⟩
  · simp [updatePost, hv, hf]
  · simp [deletePost, hv, hf]

/-- C9 witness: two distinct identities, one not the author of the
stored post. -/
theorem mutations_identity_agnostic_witness :
    (some demoUid : Option String).isSome = true ∧
    (some demoAuthor : Option String).isSome = true ∧
    objectIdValid demoPostId = true ∧
    findPost [demoPost] demoPostId = some demoPost ∧
    demoPost.author ≠ demoUid ∧
    (updatePost (some demoUid) none [demoPost] demoPostId ⟨some "U", none⟩ =
       updatePost (some demoAuthor) none [demoPost] demoPostId ⟨some "U", none⟩ ∧
     deletePost (some demoUid) none [demoPost] demoPostId =
       deletePost (some demoAuthor) none [demoPost] demoPostId ∧
     likePost (some demoUid) none [demoPost] demoPostId =
       likePost (some demoAuthor) none [demoPost] demoPostId ∧
     updatePost (some demoUid) none [demoPost] demoPostId ⟨some "U", none⟩ =
       (postSuccess (applySet demoPost ⟨some "U", none⟩) "Post updated successfully!",
        updateFirstPost (fun q => applySet q ⟨some "U", none⟩) [demoPost] demoPostId) ∧
     deletePost (some demoUid) none [demoPost] demoPostId =
       (envelope true "Post delete successfully!", removeFirstPost [demoPost] demoPostId)) :=
  ⟨by decide, by decide, by decide, by decide, by decide,
   mutations_identity_agnostic (some demoUid) (some demoAuthor) demoUid [demoPost] demoPostId
     demoPost ⟨some "U", none⟩ none (by decide) (by decide) (by decide) (by decide) (by decide)⟩

/-- C10: signUp signs its token without any expiry claim, so it resolves
to the account id at every verification time; signIn signs with a
one-day expiry, so at any time more than one day after issuance the
token resolves to no identity. -/
theorem signUp_token_never_expires_signIn_token_expires
    (users1 users2 : List UserDoc) (u : UserDoc)
    (w1 pw1 w2 pw2 secret newId : String) (now1 t1 now2 t2 : Nat)
    (h1 : users1.find? (fun x => x.userName == w1) = none)
    (h2 : users2.find? (fun x => x.userName == w2) = some u)
    (hp : u.password = bcryptHash pw2)
    (hexp : now2 + daySeconds < t2) :
    (signUp users1 w1 pw1 secret now1 newId).1.token =
      some (jwtSign newId secret now1 none) ∧
    resolveIdentity (some (jwtSign newId secret now1 none)) secret t1 = some newId ∧
    signIn users2 w2 pw2 secret now2 =
      .ok { token := some (jwtSign u.uid secret now2 (some daySeconds)),
            success := true, message := "User signed in successfully!" } ∧
    resolveIdentity (some (jwtSign u.uid secret now2 (some daySeconds))) secret t2 = none := by
  refine ⟨?_, ?_, ?_, ?_⟩
  · simp [signUp, h1]
  · simp [resolveIdentity, jwtVerify, jwtSign]
  · simp [signIn, h2, bcryptCompare, hp]
  · simp only [resolveIdentity, jwtVerify, jwtSign]
    rw [if_pos (by simp)]
    simp only [Option.map_some']
    rw [if_neg (by omega)]

/-- C10 witness: a fresh sign-up verified much later, and a sign-in
token checked one second past its expiry. -/
theorem signUp_signIn_expiry_witness :
    ([] : List UserDoc).find? (fun x => x.userName == "bob") = none ∧
    [demoUser].find? (fun x => x.userName == "alice") = some demoUser ∧
    demoUser.password = bcryptHash "hunter2" ∧
    0 + daySeconds < 86401 ∧
    ((signUp [] "bob" "pw" "s3cret" 0 demoAuthor).1.token =
       some (jwtSign demoAuthor "s3cret" 0 none) ∧
     resolveIdentity (some (jwtSign demoAuthor "s3cret" 0 none)) "s3cret" 999999999 =
       some demoAuthor ∧
     signIn [demoUser] "alice" "hunter2" "s3cret" 0 =
       .ok { token := some (jwtSign demoUser.uid "s3cret" 0 (some daySeconds)),
             success := true, message := "User signed in successfully!" } ∧
     resolveIdentity (some (jwtSign demoUser.uid "s3cret" 0 (some daySeconds))) "s3cret" 86401 =
       none) :=
  ⟨by decide, by decide, by decide, by decide,
   signUp_token_never_expires_signIn_token_expires [] [demoUser] demoUser
     "bob" "pw" "alice" "hunter2" "s3cret" demoAuthor 0 999999999 0 86401
     (by decide) (by decide) (by decide) (by decide)⟩

end Mern
